import Mathlib

/-!
Verification of the Blueprint backend research pipeline against its
natural-language specification.

The development shallowly embeds the relevant parts of the source:
  * `app/llm.py`   — provider-fallback gateway (`call_llm`), structured
    validator (`call_llm_structured`), rate-limit cooldown bookkeeping;
  * `app/db.py`    — `normalize_product_name`, `get_next_step_number`,
    `save_journey_step`;
  * `app/api/research.py` — dedup keys, `start_research`, `submit_selection`
    and the classify / competitor / explore / gap / problem pipelines.

External effects (network, database, logging, uuid generation) are modelled
by explicit oracle parameters; async generators become pure functions that
return the list of emitted SSE events together with the trace of database
calls they issue.  Python strings are Lean `String`s, except in the
character-level model of `normalize_product_name`, where a string is its
list of code points.
-/

namespace Blueprint

/-! ## Model of `db.get_next_step_number` / `db.save_journey_step`

`get_next_step_number` asks the store for the row with the largest
`step_number` (order desc, limit 1); `maybe_single` returning no row is the
`none` case.  The journey's step table is modelled as the list of persisted
step numbers, in insertion order. -/

/-- Largest element of a list of step numbers, `none` when the table holds
no row for the journey (models the `order desc / limit 1 / maybe_single`
query in `get_next_step_number`). -/
def max_step : List Nat → Option Nat
  | [] => none
  | n :: rest =>
    match max_step rest with
    | none => some n
    | some m => some (Nat.max n m)

/-- Model of `db.get_next_step_number`: `max(step_number) + 1`, or `1` when
the journey has no steps. -/
def get_next_step_number (stepNums : List Nat) : Nat :=
  match max_step stepNums with
  | some m => m + 1
  | none => 1

/-- Model of `db.save_journey_step` restricted to the step-number column:
inserting a new row appends its number to the journey's table. -/
def save_journey_step (stepNums : List Nat) (n : Nat) : List Nat :=
  stepNums ++ [n]

/-- One successful phase completion: the orchestrator fetches the next step
number and persists a step carrying it. -/
def complete_phase (stepNums : List Nat) : List Nat :=
  save_journey_step stepNums (get_next_step_number stepNums)

/-- The journey's step numbers after `n` successful phase completions,
starting from an empty step table. -/
def after_phases : Nat → List Nat
  | 0 => []
  | n + 1 => complete_phase (after_phases n)

/-! ## Model of `db.normalize_product_name`

`" ".join(name.lower().strip().split())` — lowercase, strip, split on
whitespace runs, re-join with single spaces.  A Python string is modelled
as its list of code points so the character arithmetic is plain `Nat`. -/

/-- ASCII lowercasing of one code point, as `str.lower` acts on the ASCII
range the product names use. -/
def py_to_lower (c : Nat) : Nat :=
  if 65 ≤ c ∧ c ≤ 90 then c + 32 else c

/-- Python `str.split()` whitespace: space, tab, newline, carriage return,
vertical tab, form feed. -/
def py_is_space (c : Nat) : Bool :=
  c == 32 || c == 9 || c == 10 || c == 13 || c == 11 || c == 12

/-- Model of Python `str.strip()`: drop leading and trailing whitespace. -/
def py_strip (s : List Nat) : List Nat :=
  ((s.dropWhile py_is_space).reverse.dropWhile py_is_space).reverse

/-- Worker for Python `str.split()`: `cur` is the word being accumulated,
in reverse. -/
def split_aux : List Nat → List Nat → List (List Nat)
  | [], cur => if cur = [] then [] else [cur.reverse]
  | c :: rest, cur =>
    if py_is_space c then
      if cur = [] then split_aux rest [] else cur.reverse :: split_aux rest []
    else
      split_aux rest (c :: cur)

/-- Model of Python `str.split()` with no separator: split on whitespace
runs, discarding empty pieces. -/
def py_split (s : List Nat) : List (List Nat) :=
  split_aux s []

/-- Model of `" ".join(words)`. -/
def join_words : List (List Nat) → List Nat
  | [] => []
  | [w] => w
  | w :: ws => w ++ 32 :: join_words ws

/-- Model of `db.normalize_product_name`:
`" ".join(name.lower().strip().split())`. -/
def normalize_product_name (name : List Nat) : List Nat :=
  join_words (py_split (py_strip (name.map py_to_lower)))

/-! ## Model of the LLM gateway (`app/llm.py`)

`call_llm` walks the fallback chain from index 0, skipping providers in
rate-limit cooldown, treating empty content as a failure, marking
rate-limit-shaped failures for cooldown, returning the first non-empty
content, and — when every provider was skipped — clearing all cooldowns and
recursing.  One provider attempt is modelled by an oracle
`outcome : String → ProviderOutcome`; the cooldown map at a fixed instant
is the list of providers whose deadline has not passed; the unbounded
recursion is indexed by explicit fuel (`none` = recursion budget
exhausted). -/

/-- What a single `litellm.acompletion` attempt against a provider does:
return content (possibly empty), or raise an exception with a message. -/
inductive ProviderOutcome where
  | ok (content : String)
  | err (msg : String)
deriving DecidableEq, Repr

/-- Model of `_is_rate_limit_error`: keyword scan over the lowercased
error message. -/
def is_rate_limit_error (msg : String) : Bool :=
  let m := msg.toLower
  ["rate_limit", "ratelimit", "429", "quota", "resource_exhausted",
   "timeout", "timed out"].any (fun kw => (m.splitOn kw).length ≠ 1)

/-- Result of one walk over the fallback chain: the cooldown list after the
walk, the providers attempted (in order), and the first non-empty content
found, if any. -/
structure WalkOut where
  cooldown : List String
  attempted : List String
  found : Option String
deriving DecidableEq, Repr

/-- One pass of `call_llm`'s `for idx, provider in enumerate(chain)` loop:
skip providers in cooldown, stop at the first non-empty content, convert
empty content into a failure, and record a cooldown for rate-limit-shaped
failures. -/
def walk_chain (outcome : String → ProviderOutcome) : List String → List String → WalkOut
  | [], cd => ⟨cd, [], none⟩
  | p :: rest, cd =>
    if p ∈ cd then
      walk_chain outcome rest cd
    else
      match outcome p with
      | .ok c =>
        if c = "" then
          let msg := "Provider " ++ p ++ " returned empty content"
          let cd2 := if is_rate_limit_error msg then p :: cd else cd
          let w := walk_chain outcome rest cd2
          ⟨w.cooldown, p :: w.attempted, w.found⟩
        else
          ⟨cd, [p], some c⟩
      | .err m =>
        let cd2 := if is_rate_limit_error m then p :: cd else cd
        let w := walk_chain outcome rest cd2
        ⟨w.cooldown, p :: w.attempted, w.found⟩

/-- Model of `call_llm`: walk the chain; on a found content return it; if
no provider was even attempted, clear the cooldowns and recurse; otherwise
raise `LLMError` (`.error ()`).  The returned list is the providers
attempted by the terminating walk.  `fuel` bounds the recursion depth;
`none` means the budget was exhausted before the call returned. -/
def call_llm (outcome : String → ProviderOutcome) :
    Nat → List String → List String → Option (List String × Except Unit String)
  | 0, _, _ => none
  | fuel + 1, chain, cd =>
    let w := walk_chain outcome chain cd
    match w.found with
    | some c => some (w.attempted, .ok c)
    | none =>
      if w.attempted = [] then
        call_llm outcome fuel chain []
      else
        some (w.attempted, .error ())

/-- A provider attempt that `call_llm` treats as failed: an exception, or a
response whose extracted content is empty. -/
def provider_fails (outcome : String → ProviderOutcome) (p : String) : Bool :=
  match outcome p with
  | .ok c => c = ""
  | .err _ => true

/-! ## Model of `call_llm_structured` (`app/llm.py`)

The gateway underneath is abstracted as an indexed oracle
`gateway : Nat → Except Unit String` (call number ↦ raw text, or
`LLMError`); `json.loads` + `model_validate` together are the oracle
`validate`.  The model counts gateway invocations. -/

/-- Python `str.strip()` at the character-list level (kept on `List Char`
so that concrete instances compute). -/
def list_trim (s : List Char) : List Char :=
  ((s.dropWhile Char.isWhitespace).reverse.dropWhile Char.isWhitespace).reverse

/-- Python `str.strip()` on a whole string. -/
def py_trim (s : String) : String :=
  String.mk (list_trim s.data)

/-- Model of `_strip_code_fences`: take the inner text of a single outer
fenced block (` ```json ` or plain ` ``` `), else the trimmed original. -/
def strip_code_fences (text : String) : String :=
  let stripped := list_trim text.data
  let inner :=
    if ("```json".data).isPrefixOf stripped then some (stripped.drop 7)
    else if ("```".data).isPrefixOf stripped then some (stripped.drop 3)
    else none
  match inner with
  | none => String.mk stripped
  | some r =>
    if ("```".data).isSuffixOf r then String.mk (list_trim (r.take (r.length - 3)))
    else String.mk stripped

/-- Outcome of `call_llm_structured`, tagged with the number of gateway
invocations performed. -/
inductive StructuredOutcome (α : Type) where
  | ok (a : α) (calls : Nat)
  | llm_error (calls : Nat)
  | validation_error (raw : String) (errMsg : String) (calls : Nat)
deriving DecidableEq, Repr

/-- Number of gateway invocations a `call_llm_structured` outcome records. -/
def StructuredOutcome.calls {α : Type} : StructuredOutcome α → Nat
  | .ok _ n => n
  | .llm_error n => n
  | .validation_error _ _ n => n

/-- Model of `call_llm_structured`: call the gateway, strip fences,
parse/validate; on failure retry the gateway exactly once with the fix
prompt and parse/validate again; if the retry also fails, raise
`LLMValidationError` carrying the retry's raw output and the validation
error. -/
def call_llm_structured {α : Type} (gateway : Nat → Except Unit String)
    (validate : String → Except String α) : StructuredOutcome α :=
  match gateway 0 with
  | .error _ => .llm_error 1
  | .ok raw =>
    match validate (strip_code_fences raw) with
    | .ok a => .ok a 1
    | .error _ =>
      match gateway 1 with
      | .error _ => .llm_error 2
      | .ok retry_raw =>
        match validate (strip_code_fences retry_raw) with
        | .ok a => .ok a 2
        | .error e2 => .validation_error retry_raw e2 2

/-! ## Data model for the research API (`app/api/research.py`, `app/models.py`)

The SSE events a pipeline emits, the database calls it issues, and the
parts of the journey snapshot / selection payload the pipelines read.
Free-text payload fields not read by any pipeline are omitted; error-event
message texts are carried, the per-event `error_code` (a fresh uuid) is
not modelled. -/

/-- The typed SSE events of `app/models.py` that the research pipelines
emit, restricted to the payload fields the pipelines compute. -/
inductive Event where
  | step_started (step label : String)
  | step_completed (step : String)
  | quick_response (message : String)
  | journey_started (journeyId intentType : String)
  | intent_redirect (originalIntent redirectedTo : String)
  | clarification_needed
  | waiting_for_selection (selectionType : String)
  | block_ready (blockType title : String) (cached : Bool)
  | block_error (blockName : String)
  | research_complete (journeyId : String)
  | error_event (message : String) (recoverable : Bool)
deriving DecidableEq, Repr

/-- The database calls the pipelines issue, restricted to the arguments
the claims are about. -/
inductive DbWrite where
  | createJourney (prompt intent : String)
  | saveStep (journeyId : String) (stepNumber : Nat) (stepType : String)
  | updateStatus (journeyId status : String)
  | storeProduct (normalizedName : String)
deriving DecidableEq, Repr

/-- A competitor dict as carried in `find_competitors` output data. -/
structure Competitor where
  id : String
  name : String
  url : String
deriving DecidableEq, Repr

/-- A gap-analysis problem dict as carried in `explore` output data. -/
structure Problem where
  id : String
  title : String
deriving DecidableEq, Repr

/-- One persisted journey step, restricted to the fields the pipelines
re-derive their inputs from (`step_type`, `output_data.domain`,
`output_data.competitors`, `output_data.gap_analysis.problems`,
`user_selection.answers`). -/
structure StepRec where
  step_type : String
  out_domain : Option String
  out_competitors : List Competitor
  out_gap_problems : List Problem
  sel_answers : List (String × List String)
deriving DecidableEq, Repr

/-- A journey snapshot as returned by `db.get_journey`. -/
structure Journey where
  id : String
  status : String
  intent_type : String
  steps : List StepRec
deriving DecidableEq, Repr

/-- A selection request body (`step_type` is passed separately). -/
structure Selection where
  competitor_ids : List String
  selected_competitor_ids : List String
  problem_ids : List String
  selected_problem_ids : List String
  answers : List (String × List String)
deriving DecidableEq, Repr

/-- A row of the product cache (`db.get_cached_product`), restricted to
the fields `process_competitor` reads. -/
structure CachedProduct where
  name : String
  description : String
deriving DecidableEq, Repr

/-- A validated `ProductProfile` as returned by the gateway. -/
structure Profile where
  name : String
  content : String
deriving DecidableEq, Repr

/-- A product profile dict as accumulated by the explore phase
(validated profile plus the `cached` / provenance flags). -/
structure ProfDict where
  name : String
  content : String
  cached : Bool
deriving DecidableEq, Repr

/-- A validated `MarketOverview`. -/
structure Overview where
  title : String
deriving DecidableEq, Repr

/-- A validated `GapAnalysis`. -/
structure GapResult where
  title : String
  problems : List Problem
deriving DecidableEq, Repr

/-- A validated `ProblemStatement`. -/
structure ProblemStatement where
  title : String
  content : String
deriving DecidableEq, Repr

/-- A validated `ClassifyResult`, restricted to the fields the classify
pipeline reads. -/
structure ClassifyResult where
  intent_type : String
  quick_response : Option String
  domain : Option String
  clarification_questions : List String
deriving DecidableEq, Repr

/-- Oracles for every external call the pipelines make.  Each gateway
oracle stands for one `call_llm_structured` call site (`.error ()` models
`LLMError` / `LLMValidationError` escaping it); `cache`, `scrape` and
`reddit` model `db.get_cached_product`, `scraper.scrape` (raising
`ScraperError`) and `search.search_reddit`; `newJourneyId` is the id the
store assigns in `db.create_journey` (`""` models the failed write). -/
structure Oracles where
  classifyLlm : Except Unit ClassifyResult
  newJourneyId : String
  competitorsLlm : Except Unit (List Competitor)
  cache : String → Option CachedProduct
  scrape : String → Except Unit String
  reddit : String → Except Unit (List String)
  profileLlm : String → String → String → Except Unit Profile
  overviewLlm : String → List ProfDict → Except Unit Overview
  gapLlm : Except Unit GapResult
  problemLlm : List Problem → Except Unit ProblemStatement

/-- Model of `db.normalize_product_name` at the `String` level, used where
the pipelines compute cache keys: the character-level model above applied
to the code points of the string. -/
def normalize_name (s : String) : String :=
  String.mk ((normalize_product_name (s.data.map Char.toNat)).map Char.ofNat)

/-- Model of `_make_dedup_key`: `journey:<id>` when a journey id is given,
else `prompt:` plus a hash of the prompt.  The sha256-hexdigest-truncation
is library code, abstracted as the oracle `h`. -/
def make_dedup_key (h : String → String) (journeyId : Option String) (prompt : String) : String :=
  match journeyId with
  | some j => "journey:" ++ j
  | none => "prompt:" ++ h prompt

/-! ## The pipelines (`app/api/research.py`)

Each async generator becomes a pure function returning the list of SSE
events it yields together with the trace of database calls it issues.
`stepNums` is the journey's current list of persisted step numbers (the
state `get_next_step_number` queries); it is threaded through consecutive
saves inside one pipeline.  Message literals containing apostrophes are
replaced by short tags; the per-event correlation code (a fresh uuid) is
not modelled. -/

/-- `next(s for s in steps if s.get("step_type") == ty)` — first step of a
given type. -/
def find_step (steps : List StepRec) (ty : String) : Option StepRec :=
  steps.find? (fun s => s.step_type = ty)

/-- The domain the pipelines re-derive from the `classify` step. -/
def domain_of (journey : Journey) : String :=
  ((find_step journey.steps "classify").bind (fun s => s.out_domain)).getD ""

/-- The competitors the explore phase selects: the `find_competitors`
step's presented competitors filtered by the submitted ids
(`competitor_ids`, falling back to `selected_competitor_ids`). -/
def competitors_selected (selection : Selection) (journey : Journey) : List Competitor :=
  let competitors_presented :=
    ((find_step journey.steps "find_competitors").map (fun s => s.out_competitors)).getD []
  let selected_ids :=
    if selection.competitor_ids ≠ [] then selection.competitor_ids
    else selection.selected_competitor_ids
  competitors_presented.filter (fun c => selected_ids.contains c.id)

/-- The problems the problem phase selects: the `explore` step's gap
problems filtered by the submitted ids (`problem_ids`, falling back to
`selected_problem_ids`). -/
def problems_selected (selection : Selection) (journey : Journey) : List Problem :=
  let problems_presented :=
    ((find_step journey.steps "explore").map (fun s => s.out_gap_problems)).getD []
  let selected_ids :=
    if selection.problem_ids ≠ [] then selection.problem_ids
    else selection.selected_problem_ids
  problems_presented.filter (fun p => selected_ids.contains p.id)

/-- Outcome of `process_competitor` for one competitor: a profile dict, or
the `("error", name, msg)` tuple the surrounding loop turns into a
`block_error` event. -/
inductive CompResult where
  | profile (p : ProfDict)
  | failed (name : String)
deriving DecidableEq, Repr

/-- Model of `process_competitor` in `_run_explore_pipeline`: check the
product cache by normalized name; on a miss, scrape the site (a
`ScraperError` is swallowed, leaving empty text), search Reddit (any
failure leaves empty text), call the gateway for a structured profile and
store it in the cache; a gateway failure yields the error outcome. -/
def process_competitor (O : Oracles) (comp : Competitor) : CompResult × List DbWrite :=
  let norm_name := normalize_name comp.name
  match O.cache norm_name with
  | some cached => (.profile ⟨cached.name, cached.description, true⟩, [])
  | none =>
    let scraped :=
      if comp.url ≠ "" then
        match O.scrape comp.url with
        | .ok t => t
        | .error _ => ""
      else ""
    let reddit_content :=
      match O.reddit (comp.name ++ " review") with
      | .ok rs => "\n\n".intercalate rs
      | .error _ => ""
    match O.profileLlm comp.name scraped reddit_content with
    | .ok prof => (.profile ⟨prof.name, prof.content, false⟩, [.storeProduct norm_name])
    | .error _ => (.failed comp.name, [])

/-- The `for r in results` loop of `_run_explore_pipeline`: one
`block_ready` per profile, one `block_error` per failed competitor, in
gather order. -/
def results_events : List CompResult → List Event
  | [] => []
  | .profile p :: rest => .block_ready "product_profile" p.name p.cached :: results_events rest
  | .failed n :: rest => .block_error n :: results_events rest

/-- The `profiles` list accumulated by that loop. -/
def profiles_of : List CompResult → List ProfDict
  | [] => []
  | .profile p :: rest => p :: profiles_of rest
  | .failed _ :: rest => profiles_of rest

/-- Model of `_run_gap_analysis` (build intent only): one gateway call; on
success persist an `explore` step and emit the gap block, on any failure
emit a `block_error`. -/
def run_gap_analysis (O : Oracles) (journeyId : String) (stepNums : List Nat) :
    List Event × List DbWrite :=
  match O.gapLlm with
  | .ok gap =>
    let n := get_next_step_number stepNums
    ([.step_started "gap_analyzing" "Finding market gaps",
      .block_ready "gap_analysis" gap.title false,
      .step_completed "gap_analyzing"],
     [.saveStep journeyId n "explore"])
  | .error _ =>
    ([.step_started "gap_analyzing" "Finding market gaps",
      .block_error "Gap Analysis"], [])

/-- Model of `_run_explore_pipeline`: re-derive domain and presented
competitors from prior steps, persist the `select_competitors` step,
process every selected competitor (gather, submission order), emit one
result event per unit, then the market overview, then either the gap
analysis (build intent) or the terminal explore step with completion. -/
def run_explore_pipeline (O : Oracles) (journeyId : String) (selection : Selection)
    (journey : Journey) (stepNums : List Nat) : List Event × List DbWrite :=
  let selected := competitors_selected selection journey
  let n1 := get_next_step_number stepNums
  let nums1 := save_journey_step stepNums n1
  let results := selected.map (process_competitor O)
  let res := results.map Prod.fst
  let storeWrites := (results.map Prod.snd).flatten
  let profiles := profiles_of res
  let ovEvents :=
    match O.overviewLlm (domain_of journey) profiles with
    | .ok ov => [Event.block_ready "market_overview" ov.title false]
    | .error _ => [Event.block_error "Market Overview"]
  let headEvents :=
    Event.step_started "exploring" "Analyzing products" :: results_events res ++ ovEvents
  if journey.intent_type = "build" then
    let g := run_gap_analysis O journeyId nums1
    (headEvents ++ [Event.step_completed "exploring"] ++ g.1
       ++ [Event.waiting_for_selection "problems"],
     DbWrite.saveStep journeyId n1 "select_competitors" :: storeWrites ++ g.2)
  else
    let n2 := get_next_step_number nums1
    (headEvents ++ [Event.step_completed "exploring", Event.research_complete journeyId],
     DbWrite.saveStep journeyId n1 "select_competitors" :: storeWrites
       ++ [DbWrite.saveStep journeyId n2 "explore",
           DbWrite.updateStatus journeyId "completed"])

/-- Model of `_run_competitor_pipeline`: persist the `clarify` step, then
a single structured gateway call for the competitor list; success persists
the `find_competitors` step and emits the block, a gateway failure emits
the terminal error event. -/
def run_competitor_pipeline (O : Oracles) (journeyId : String) (_selection : Selection)
    (_journey : Journey) (stepNums : List Nat) : List Event × List DbWrite :=
  let n1 := get_next_step_number stepNums
  let nums1 := save_journey_step stepNums n1
  match O.competitorsLlm with
  | .ok _comps =>
    let n2 := get_next_step_number nums1
    ([Event.step_started "finding_competitors" "Finding competitors",
      Event.block_ready "competitor_list" "Competitors" false,
      Event.step_completed "finding_competitors",
      Event.waiting_for_selection "competitors"],
     [DbWrite.saveStep journeyId n1 "clarify",
      DbWrite.saveStep journeyId n2 "find_competitors"])
  | .error _ =>
    ([Event.step_started "finding_competitors" "Finding competitors",
      Event.error_event "llm_failure" false],
     [DbWrite.saveStep journeyId n1 "clarify"])

/-- Model of `_run_problem_pipeline` (the terminal phase for build
intent): re-derive the presented problems from the `explore` step, persist
the `select_problems` step, call the gateway for the problem statement; on
success persist the `define_problem` step, mark the journey `completed`
and emit `research_complete`; a gateway failure emits the terminal error
event. -/
def run_problem_pipeline (O : Oracles) (journeyId : String) (selection : Selection)
    (journey : Journey) (stepNums : List Nat) : List Event × List DbWrite :=
  let selected := problems_selected selection journey
  let n1 := get_next_step_number stepNums
  let nums1 := save_journey_step stepNums n1
  match O.problemLlm selected with
  | .ok st =>
    let n2 := get_next_step_number nums1
    ([Event.step_started "defining_problem" "Defining your problem",
      Event.block_ready "problem_statement" st.title false,
      Event.step_completed "defining_problem",
      Event.research_complete journeyId],
     [DbWrite.saveStep journeyId n1 "select_problems",
      DbWrite.saveStep journeyId n2 "define_problem",
      DbWrite.updateStatus journeyId "completed"])
  | .error _ =>
    ([Event.step_started "defining_problem" "Defining your problem",
      Event.error_event "llm_failure" false],
     [DbWrite.saveStep journeyId n1 "select_problems"])

/-- Model of `_run_classify_pipeline`: one structured gateway call; quick
reply for small talk / off topic; `improve` is rewritten to `explore`
before the journey is created, with a single redirect event after
`journey_started`; the classify step is persisted with the literal step
number 1. -/
def run_classify_pipeline (O : Oracles) (prompt : String) : List Event × List DbWrite :=
  match O.classifyLlm with
  | .error _ =>
    ([Event.step_started "classifying" "Understanding your query",
      Event.error_event "llm_failure" false], [])
  | .ok cr =>
    let base := [Event.step_started "classifying" "Understanding your query",
                 Event.step_completed "classifying"]
    if cr.intent_type = "small_talk" ∨ cr.intent_type = "off_topic" then
      (base ++ [Event.quick_response (cr.quick_response.getD "default_quick_response")], [])
    else
      let intent := if cr.intent_type = "improve" then "explore" else cr.intent_type
      let jid := O.newJourneyId
      if jid = "" then
        (base ++ [Event.error_event "db_write_failed" false],
         [DbWrite.createJourney prompt intent])
      else
        let redirect :=
          if cr.intent_type = "improve" then [Event.intent_redirect "improve" "explore"]
          else []
        let clarif :=
          if cr.clarification_questions ≠ [] then [Event.clarification_needed] else []
        (base ++ [Event.journey_started jid intent] ++ redirect ++ clarif
           ++ [Event.waiting_for_selection "clarification"],
         [DbWrite.createJourney prompt intent, DbWrite.saveStep jid 1 "classify"])

/-- The HTTP-level outcome of a research endpoint: a 404, a 409, or an SSE
stream (with the database trace its generator produces). -/
inductive HttpResponse where
  | notFound
  | conflict
  | stream (events : List Event) (writes : List DbWrite)
deriving DecidableEq, Repr

/-- Model of `submit_selection` (`POST /api/research/{id}/selection`):
404 when the journey is unknown, 409 when the journey dedup key is in
flight, otherwise a stream dispatching on `step_type`, with an unknown
step type producing a single non-recoverable error event. -/
def submit_selection (O : Oracles) (h : String → String) (getJourney : String → Option Journey)
    (active : List String) (journeyId : String) (step_type : String) (selection : Selection)
    (stepNums : List Nat) : HttpResponse :=
  match getJourney journeyId with
  | none => .notFound
  | some journey =>
    let key := make_dedup_key h (some journeyId) ""
    if key ∈ active then .conflict
    else if step_type = "clarify" then
      let r := run_competitor_pipeline O journeyId selection journey stepNums
      .stream r.1 r.2
    else if step_type = "select_competitors" then
      let r := run_explore_pipeline O journeyId selection journey stepNums
      .stream r.1 r.2
    else if step_type = "select_problems" then
      let r := run_problem_pipeline O journeyId selection journey stepNums
      .stream r.1 r.2
    else
      .stream [Event.error_event "Invalid selection step type." false] []

/-- Model of `start_research` (`POST /api/research`): strip the prompt,
reject on a dedup collision, otherwise stream the classify pipeline. -/
def start_research (O : Oracles) (h : String → String) (active : List String)
    (rawPrompt : String) : HttpResponse :=
  let prompt := py_trim rawPrompt
  let key := make_dedup_key h none prompt
  if key ∈ active then .conflict
  else
    let r := run_classify_pipeline O prompt
    .stream r.1 r.2

/-! ## Dedup-set dynamics

`_active_researches` is a process-wide map; a request first checks its key
and registers it, and the stream generator removes it in a `finally`
block.  The two halves are modelled separately so the lifecycle can be
stated. -/

/-- The dedup check-and-register step of `start_research`: `none` models
the 409 rejection (set unchanged, no stream opened); `some key` means the
key was registered and the stream opened. -/
def start_research_enter (h : String → String) (active : List String) (rawPrompt : String) :
    Option String × List String :=
  let key := make_dedup_key h none (py_trim rawPrompt)
  if key ∈ active then (none, active)
  else (some key, key :: active)

/-- The `finally` block of the stream generator: the key is removed
whether the stream body succeeded or failed. -/
def stream_finally (active : List String) (key : String) : List String :=
  active.erase key

/-! ## Lemmas about the gateway walk -/

theorem walk_chain_nil (o : String → ProviderOutcome) (cd : List String) :
    walk_chain o [] cd = ⟨cd, [], none⟩ := rfl

theorem walk_chain_cons_mem {p : String} {cd : List String} (o : String → ProviderOutcome)
    (rest : List String) (hmem : p ∈ cd) :
    walk_chain o (p :: rest) cd = walk_chain o rest cd := by
  simp [walk_chain, hmem]

theorem walk_chain_cons_ok {p c : String} {cd : List String} (o : String → ProviderOutcome)
    (rest : List String) (hmem : p ∉ cd) (ho : o p = .ok c) (hc : c ≠ "") :
    walk_chain o (p :: rest) cd = ⟨cd, [p], some c⟩ := by
  simp [walk_chain, hmem, ho, hc]

theorem walk_chain_cons_empty {p : String} {cd : List String} (o : String → ProviderOutcome)
    (rest : List String) (hmem : p ∉ cd) (ho : o p = .ok "") :
    walk_chain o (p :: rest) cd =
      ⟨(walk_chain o rest (if is_rate_limit_error ("Provider " ++ p ++ " returned empty content")
          then p :: cd else cd)).cooldown,
       p :: (walk_chain o rest (if is_rate_limit_error ("Provider " ++ p ++ " returned empty content")
          then p :: cd else cd)).attempted,
       (walk_chain o rest (if is_rate_limit_error ("Provider " ++ p ++ " returned empty content")
          then p :: cd else cd)).found⟩ := by
  simp [walk_chain, hmem, ho]

theorem walk_chain_cons_err {p m : String} {cd : List String} (o : String → ProviderOutcome)
    (rest : List String) (hmem : p ∉ cd) (ho : o p = .err m) :
    walk_chain o (p :: rest) cd =
      ⟨(walk_chain o rest (if is_rate_limit_error m then p :: cd else cd)).cooldown,
       p :: (walk_chain o rest (if is_rate_limit_error m then p :: cd else cd)).attempted,
       (walk_chain o rest (if is_rate_limit_error m then p :: cd else cd)).found⟩ := by
  simp [walk_chain, hmem, ho]

/-- Providers attempted by a walk form a subsequence of the chain. -/
theorem walk_attempted_sublist (o : String → ProviderOutcome) :
    ∀ (xs cd : List String), ((walk_chain o xs cd).attempted).Sublist xs := by
  intro xs
  induction xs with
  | nil => intro cd; simp [walk_chain_nil]
  | cons p rest ih =>
    intro cd
    by_cases hmem : p ∈ cd
    · rw [walk_chain_cons_mem o rest hmem]
      exact (ih cd).cons p
    · cases ho : o p with
      | ok c =>
        by_cases hc : c = ""
        · subst hc
          rw [walk_chain_cons_empty o rest hmem ho]
          exact (ih _).cons₂ p
        · rw [walk_chain_cons_ok o rest hmem ho hc]
          exact (List.nil_sublist rest).cons₂ p
      | err m =>
        rw [walk_chain_cons_err o rest hmem ho]
        exact (ih _).cons₂ p

/-- When a walk finds no content, every provider it attempted failed. -/
theorem walk_found_none_fails (o : String → ProviderOutcome) :
    ∀ (xs cd : List String), (walk_chain o xs cd).found = none →
      ∀ p ∈ (walk_chain o xs cd).attempted, provider_fails o p = true := by
  intro xs
  induction xs with
  | nil => intro cd _ p hp; simp [walk_chain_nil] at hp
  | cons q rest ih =>
    intro cd hnone p hp
    by_cases hmem : q ∈ cd
    · rw [walk_chain_cons_mem o rest hmem] at hnone hp
      exact ih cd hnone p hp
    · cases ho : o q with
      | ok c =>
        by_cases hc : c = ""
        · subst hc
          rw [walk_chain_cons_empty o rest hmem ho] at hnone hp
          rcases List.mem_cons.mp hp with hqp | hp2
          · subst hqp; simp [provider_fails, ho]
          · exact ih _ hnone p hp2
        · rw [walk_chain_cons_ok o rest hmem ho hc] at hnone
          simp at hnone
      | err m =>
        rw [walk_chain_cons_err o rest hmem ho] at hnone hp
        rcases List.mem_cons.mp hp with hqp | hp2
        · subst hqp; simp [provider_fails, ho]
        · exact ih _ hnone p hp2

/-- When every provider in the chain fails, no walk finds content. -/
theorem walk_all_fail_found_none (o : String → ProviderOutcome) :
    ∀ (xs cd : List String), (∀ p ∈ xs, provider_fails o p = true) →
      (walk_chain o xs cd).found = none := by
  intro xs
  induction xs with
  | nil => intro cd _; simp [walk_chain_nil]
  | cons q rest ih =>
    intro cd hall
    by_cases hmem : q ∈ cd
    · rw [walk_chain_cons_mem o rest hmem]
      exact ih cd (fun p hp => hall p (List.mem_cons_of_mem q hp))
    · cases ho : o q with
      | ok c =>
        by_cases hc : c = ""
        · subst hc
          rw [walk_chain_cons_empty o rest hmem ho]
          exact ih _ (fun p hp => hall p (List.mem_cons_of_mem q hp))
        · exfalso
          have := hall q (List.mem_cons_self q rest)
          simp [provider_fails, ho, hc] at this
      | err m =>
        rw [walk_chain_cons_err o rest hmem ho]
        exact ih _ (fun p hp => hall p (List.mem_cons_of_mem q hp))

/-- When some provider of the chain is outside the cooldown list, the walk
attempts at least one provider. -/
theorem walk_attempted_ne_nil (o : String → ProviderOutcome) :
    ∀ (xs cd : List String), (∃ p ∈ xs, p ∉ cd) →
      (walk_chain o xs cd).attempted ≠ [] := by
  intro xs
  induction xs with
  | nil => intro cd h; simp at h
  | cons q rest ih =>
    intro cd h
    by_cases hmem : q ∈ cd
    · rw [walk_chain_cons_mem o rest hmem]
      rcases h with ⟨p, hp, hpcd⟩
      rcases List.mem_cons.mp hp with rfl | hp2
      · exact absurd hmem hpcd
      · exact ih cd ⟨p, hp2, hpcd⟩
    · cases ho : o q with
      | ok c =>
        by_cases hc : c = ""
        · subst hc
          rw [walk_chain_cons_empty o rest hmem ho]
          simp
        · rw [walk_chain_cons_ok o rest hmem ho hc]
          simp
      | err m =>
        rw [walk_chain_cons_err o rest hmem ho]
        simp

/-- When every provider is in cooldown, the walk is a no-op. -/
theorem walk_all_cooldown (o : String → ProviderOutcome) :
    ∀ (xs cd : List String), (∀ p ∈ xs, p ∈ cd) →
      walk_chain o xs cd = ⟨cd, [], none⟩ := by
  intro xs
  induction xs with
  | nil => intro cd _; simp [walk_chain_nil]
  | cons q rest ih =>
    intro cd hall
    rw [walk_chain_cons_mem o rest (hall q (List.mem_cons_self q rest))]
    exact ih cd (fun p hp => hall p (List.mem_cons_of_mem q hp))

/-- A provider in the cooldown list after a walk was in cooldown before it
or was attempted (and marked) during it. -/
theorem walk_cooldown_mem (o : String → ProviderOutcome) :
    ∀ (xs cd : List String) (q : String), q ∈ (walk_chain o xs cd).cooldown →
      q ∈ cd ∨ q ∈ (walk_chain o xs cd).attempted := by
  intro xs
  induction xs with
  | nil => intro cd q hq; simp [walk_chain_nil] at hq ⊢; exact hq
  | cons p rest ih =>
    intro cd q hq
    by_cases hmem : p ∈ cd
    · rw [walk_chain_cons_mem o rest hmem] at hq ⊢
      exact ih cd q hq
    · cases ho : o p with
      | ok c =>
        by_cases hc : c = ""
        · subst hc
          rw [walk_chain_cons_empty o rest hmem ho] at hq ⊢
          rcases ih _ q hq with hcd2 | hatt
          · by_cases hrl : is_rate_limit_error ("Provider " ++ p ++ " returned empty content")
            · rw [if_pos hrl] at hcd2
              rcases List.mem_cons.mp hcd2 with rfl | h2
              · exact Or.inr (List.mem_cons_self q _)
              · exact Or.inl h2
            · rw [if_neg hrl] at hcd2
              exact Or.inl hcd2
          · exact Or.inr (List.mem_cons_of_mem p hatt)
        · rw [walk_chain_cons_ok o rest hmem ho hc] at hq ⊢
          exact Or.inl hq
      | err m =>
        rw [walk_chain_cons_err o rest hmem ho] at hq ⊢
        rcases ih _ q hq with hcd2 | hatt
        · by_cases hrl : is_rate_limit_error m
          · rw [if_pos hrl] at hcd2
            rcases List.mem_cons.mp hcd2 with rfl | h2
            · exact Or.inr (List.mem_cons_self q _)
            · exact Or.inl h2
          · rw [if_neg hrl] at hcd2
            exact Or.inl hcd2
        · exact Or.inr (List.mem_cons_of_mem p hatt)

/-- Decomposition of a walk over a concatenated chain: the walk stops at a
success inside the first part, otherwise continues into the second with
the cooldowns accumulated so far. -/
theorem walk_append (o : String → ProviderOutcome) :
    ∀ (xs ys cd : List String),
      walk_chain o (xs ++ ys) cd =
        match (walk_chain o xs cd).found with
        | some c => ⟨(walk_chain o xs cd).cooldown, (walk_chain o xs cd).attempted, some c⟩
        | none =>
          ⟨(walk_chain o ys (walk_chain o xs cd).cooldown).cooldown,
           (walk_chain o xs cd).attempted ++ (walk_chain o ys (walk_chain o xs cd).cooldown).attempted,
           (walk_chain o ys (walk_chain o xs cd).cooldown).found⟩ := by
  intro xs
  induction xs with
  | nil =>
    intro ys cd
    simp [walk_chain_nil]
  | cons p rest ih =>
    intro ys cd
    by_cases hmem : p ∈ cd
    · rw [List.cons_append, walk_chain_cons_mem o (rest ++ ys) hmem,
        walk_chain_cons_mem o rest hmem]
      exact ih ys cd
    · cases ho : o p with
      | ok c =>
        by_cases hc : c = ""
        · subst hc
          rw [List.cons_append, walk_chain_cons_empty o (rest ++ ys) hmem ho,
            walk_chain_cons_empty o rest hmem ho]
          rw [ih ys _]
          cases hfound : (walk_chain o rest
              (if is_rate_limit_error ("Provider " ++ p ++ " returned empty content")
               then p :: cd else cd)).found <;> simp [hfound]
        · rw [List.cons_append, walk_chain_cons_ok o (rest ++ ys) hmem ho hc,
            walk_chain_cons_ok o rest hmem ho hc]
      | err m =>
        rw [List.cons_append, walk_chain_cons_err o (rest ++ ys) hmem ho,
          walk_chain_cons_err o rest hmem ho]
        rw [ih ys _]
        cases hfound : (walk_chain o rest
            (if is_rate_limit_error m then p :: cd else cd)).found <;> simp [hfound]

/-- Whenever `call_llm` raises `LLMError`, the terminating walk attempted
at least one provider and every attempted provider failed. -/
theorem call_llm_error_attempted (o : String → ProviderOutcome) :
    ∀ (fuel : Nat) (chain cd att : List String),
      call_llm o fuel chain cd = some (att, .error ()) →
      att ≠ [] ∧ ∀ p ∈ att, provider_fails o p = true := by
  intro fuel
  induction fuel with
  | zero => intro chain cd att h; simp [call_llm] at h
  | succ n ih =>
    intro chain cd att h
    simp only [call_llm] at h
    cases hf : (walk_chain o chain cd).found with
    | some c => rw [hf] at h; simp at h
    | none =>
      rw [hf] at h
      by_cases ha : (walk_chain o chain cd).attempted = []
      · rw [if_pos ha] at h
        exact ih chain [] att h
      · rw [if_neg ha] at h
        simp only [Option.some.injEq, Prod.mk.injEq] at h
        rcases h with ⟨hatt, -⟩
        subst hatt
        exact ⟨ha, walk_found_none_fails o chain cd hf⟩

/-! ## Claim C1 — gateway fallback contract -/

/-- Claim C1: for a `call_llm` invocation over a provider chain, (i) when
every provider fails (exception or empty content) and at least one is
outside cooldown, the call raises `LLMError` after at most `K` attempts
and after attempting at least one provider; (ii) when a provider outside
cooldown succeeds with non-empty content and every provider before it in
the chain fails, the call returns that content and attempts no provider
after it (the attempt list ends at the successful provider, preceded only
by a subsequence of the earlier chain entries); (iii) whatever the fuel,
`LLMError` is raised only when at least one provider was attempted and
every attempted provider failed to produce non-empty output. -/
theorem call_llm_fallback_contract (o : String → ProviderOutcome) (chain cooldown : List String) :
    ((∀ p ∈ chain, provider_fails o p = true) → (∃ p ∈ chain, p ∉ cooldown) →
      ∃ att, call_llm o 2 chain cooldown = some (att, .error ()) ∧ att ≠ [] ∧
        att.length ≤ chain.length)
    ∧ (∀ (pre post : List String) (p c : String),
        chain = pre ++ p :: post → (∀ q ∈ pre, provider_fails o q = true) →
        o p = .ok c → c ≠ "" → p ∉ cooldown →
        ∃ l, call_llm o 2 chain cooldown = some (l ++ [p], .ok c) ∧ l.Sublist pre)
    ∧ (∀ (fuel : Nat) (att : List String),
        call_llm o fuel chain cooldown = some (att, .error ()) →
        att ≠ [] ∧ ∀ p ∈ att, provider_fails o p = true) := by
  refine ⟨?_, ?_, fun fuel att h => call_llm_error_attempted o fuel chain cooldown att h⟩
  · intro hall hex
    have hf := walk_all_fail_found_none o chain cooldown hall
    have ha := walk_attempted_ne_nil o chain cooldown hex
    refine ⟨(walk_chain o chain cooldown).attempted, ?_, ha,
      (walk_attempted_sublist o chain cooldown).length_le⟩
    simp only [call_llm, hf, if_neg ha]
  · intro pre post p c hchain hpre ho hc hpcd
    subst hchain
    have hprenone := walk_all_fail_found_none o pre cooldown hpre
    have hpnotpre : p ∉ (walk_chain o pre cooldown).cooldown := by
      intro hmem
      rcases walk_cooldown_mem o pre cooldown p hmem with h1 | h2
      · exact hpcd h1
      · have hp_pre : p ∈ pre := (walk_attempted_sublist o pre cooldown).mem h2
        have := hpre p hp_pre
        simp [provider_fails, ho, hc] at this
    have hstep := walk_chain_cons_ok o post hpnotpre ho hc
    have hwhole : walk_chain o (pre ++ p :: post) cooldown =
        ⟨(walk_chain o pre cooldown).cooldown,
         (walk_chain o pre cooldown).attempted ++ [p], some c⟩ := by
      rw [walk_append o pre (p :: post) cooldown]
      simp only [hprenone, hstep]
    refine ⟨(walk_chain o pre cooldown).attempted, ?_,
      walk_attempted_sublist o pre cooldown⟩
    simp only [call_llm, hwhole]

/-- Witness for C1 at a concrete chain: two providers, both failing with
a rate-limit-shaped error. -/
def outcome_all_fail : String → ProviderOutcome := fun _ => .err "429 quota exceeded"

/-- Concrete instantiation of the C1 theorem: both providers of a
two-entry chain fail, no cooldown is active. -/
theorem call_llm_fallback_contract_witness :
    ∃ att, call_llm outcome_all_fail 2 ["gemini/gemini-2.5-pro", "openai/gpt-4o-mini"] []
        = some (att, .error ()) ∧ att ≠ [] ∧ att.length ≤ 2 :=
  (call_llm_fallback_contract outcome_all_fail ["gemini/gemini-2.5-pro", "openai/gpt-4o-mini"]
      []).1 (by decide) (by decide)

/-! ## Claim C5 — cooldown liveness -/

/-- Claim C5: when every provider of a non-empty chain is in cooldown (so
none is attempted), `call_llm` clears the cooldown list and recurses
exactly once — the call with recursion budget 2 equals the budget-1 call
on an empty cooldown list, and it terminates with a value (content or
`LLMError`) rather than recursing further or stalling. -/
theorem call_llm_cooldown_liveness (o : String → ProviderOutcome) (chain cooldown : List String)
    (hcd : ∀ p ∈ chain, p ∈ cooldown) (hne : chain ≠ []) :
    call_llm o 2 chain cooldown = call_llm o 1 chain [] ∧
    ∃ r, call_llm o 2 chain cooldown = some r := by
  have hwalk := walk_all_cooldown o chain cooldown hcd
  have hstep : call_llm o 2 chain cooldown = call_llm o 1 chain [] := by
    simp [call_llm, hwalk]
  refine ⟨hstep, ?_⟩
  rw [hstep]
  cases hf : (walk_chain o chain []).found with
  | some c =>
    exact ⟨((walk_chain o chain []).attempted, .ok c), by simp only [call_llm, hf]⟩
  | none =>
    obtain ⟨q, rest, rfl⟩ : ∃ q rest, chain = q :: rest := by
      cases chain with
      | nil => exact absurd rfl hne
      | cons q rest => exact ⟨q, rest, rfl⟩
    have ha := walk_attempted_ne_nil o (q :: rest) []
      ⟨q, List.mem_cons_self q rest, List.not_mem_nil q⟩
    exact ⟨((walk_chain o (q :: rest) []).attempted, .error ()), by
      simp only [call_llm, hf, if_neg ha]⟩

/-- Concrete instantiation of the C5 theorem: a single-provider chain in
cooldown; the call still terminates. -/
theorem call_llm_cooldown_liveness_witness :
    call_llm outcome_all_fail 2 ["gemini/gemini-2.5-pro"] ["gemini/gemini-2.5-pro"]
        = call_llm outcome_all_fail 1 ["gemini/gemini-2.5-pro"] [] ∧
    ∃ r, call_llm outcome_all_fail 2 ["gemini/gemini-2.5-pro"] ["gemini/gemini-2.5-pro"]
        = some r :=
  call_llm_cooldown_liveness outcome_all_fail ["gemini/gemini-2.5-pro"]
    ["gemini/gemini-2.5-pro"] (by decide) (by decide)

/-! ## Claim C3 — validator retries exactly once -/

/-- Claim C3: when the first gateway response fails parsing or schema
validation, `call_llm_structured` invokes the gateway exactly twice and
never a third time; when the retry response validates, the validated
instance is returned; when the retry also fails validation,
`LLMValidationError` is raised carrying the retry's raw text (not the
first response) and the retry's validation error. -/
theorem call_llm_structured_retry_once {α : Type} (g : Nat → Except Unit String)
    (v : String → Except String α) (raw e : String)
    (h0 : g 0 = .ok raw) (hfail : v (strip_code_fences raw) = .error e) :
    (call_llm_structured g v).calls = 2
    ∧ (∀ (rr : String) (a : α), g 1 = .ok rr → v (strip_code_fences rr) = .ok a →
        call_llm_structured g v = .ok a 2)
    ∧ (∀ (rr e2 : String), g 1 = .ok rr → v (strip_code_fences rr) = .error e2 →
        call_llm_structured g v = .validation_error rr e2 2) := by
  refine ⟨?_, ?_, ?_⟩
  · simp only [call_llm_structured, h0, hfail]
    cases h1 : g 1 with
    | error u => simp [StructuredOutcome.calls]
    | ok rr =>
      cases h2 : v (strip_code_fences rr) with
      | ok a => simp [h2, StructuredOutcome.calls]
      | error e2 => simp [h2, StructuredOutcome.calls]
  · intro rr a h1 h2
    simp only [call_llm_structured, h0, hfail, h1, h2]
  · intro rr e2 h1 h2
    simp only [call_llm_structured, h0, hfail, h1, h2]

/-- A two-response gateway for the C3 witness: the first response is
invalid, the retry is valid. -/
def gateway_retry : Nat → Except Unit String := fun n =>
  if n = 0 then .ok "not json" else .ok "good"

/-- A validator for the C3 witness accepting exactly the string `good`. -/
def validate_good : String → Except String Nat := fun s =>
  if s = "good" then .ok 7 else .error "invalid"

/-- Concrete instantiation of the C3 theorem: first response invalid,
retry valid; the instance comes back and the gateway ran exactly twice. -/
theorem call_llm_structured_retry_once_witness :
    (call_llm_structured gateway_retry validate_good).calls = 2
    ∧ call_llm_structured gateway_retry validate_good = .ok 7 2 :=
  ⟨(call_llm_structured_retry_once gateway_retry validate_good "not json" "invalid"
      (by rfl) (by rfl)).1,
   (call_llm_structured_retry_once gateway_retry validate_good "not json" "invalid"
      (by rfl) (by rfl)).2.1 "good" 7 (by rfl) (by rfl)⟩

/-! ## Claim C6 — step numbering -/

theorem range_one_concat (k : Nat) :
    List.range' 1 (k + 1) = List.range' 1 k ++ [1 + k] := by
  have h := @List.range'_concat 1 1 k
  simpa using h

theorem max_step_append (l : List Nat) (a : Nat) :
    max_step (l ++ [a]) =
      some (match max_step l with | none => a | some m => Nat.max m a) := by
  induction l with
  | nil => simp [max_step]
  | cons x xs ih =>
    have hcons : max_step (x :: (xs ++ [a])) =
        match max_step (xs ++ [a]) with
        | none => some x
        | some m => some (Nat.max x m) := rfl
    rw [List.cons_append, hcons, ih]
    cases h : max_step xs with
    | none => simp [max_step, h]
    | some m => simp [max_step, h, Nat.max_assoc]

theorem max_step_range (n : Nat) :
    max_step (List.range' 1 n) = if n = 0 then none else some n := by
  induction n with
  | zero => simp [max_step]
  | succ k ih =>
    rw [range_one_concat, max_step_append, ih]
    cases k with
    | zero => simp
    | succ j =>
      have hmax : Nat.max (j + 1) (1 + (j + 1)) = 1 + (j + 1) :=
        Nat.max_eq_right (by omega)
      simp only [Nat.succ_ne_zero, ite_false, hmax]
      simp [Nat.add_comm]

theorem get_next_range (n : Nat) :
    get_next_step_number (List.range' 1 n) = n + 1 := by
  rw [get_next_step_number, max_step_range]
  cases n with
  | zero => simp
  | succ k => simp

/-- Claim C6: `get_next_step_number` returns `max(existing) + 1` when steps
exist and `1` when none do, and `N` successful phase completions (each
fetching the next number and persisting a step with it) leave the
journey's step numbers exactly `1..N`, strictly increasing and gapless. -/
theorem step_numbering_contract :
    (∀ (l : List Nat) (m : Nat), max_step l = some m → get_next_step_number l = m + 1)
    ∧ get_next_step_number [] = 1
    ∧ (∀ n : Nat, after_phases n = List.range' 1 n) := by
  refine ⟨?_, rfl, ?_⟩
  · intro l m h
    rw [get_next_step_number, h]
  · intro n
    induction n with
    | zero => rfl
    | succ k ih =>
      show complete_phase (after_phases k) = _
      rw [ih, complete_phase, get_next_range, save_journey_step]
      rw [range_one_concat, Nat.add_comm 1 k]

/-- Concrete instantiation of the C6 theorem: on the table `[1, 2]` the
next step number is `3`. -/
theorem step_numbering_contract_witness :
    get_next_step_number [1, 2] = 2 + 1 :=
  step_numbering_contract.1 [1, 2] 2 (by decide)

/-! ## Claim C7 — dedup keys and in-flight lifecycle -/

/-- Claim C7: the dedup key is `journey:<id>` for a selection submission
and `prompt:` plus a hash of the stripped prompt for a fresh start; a
request whose key is in flight is rejected with a conflict before any
stream opens (the set unchanged); the key is removed when the stream
generator exits — success or failure alike — and an identical request
submitted afterwards is accepted. -/
theorem dedup_key_lifecycle (h : String → String) (active : List String)
    (jid rawPrompt p : String) :
    (make_dedup_key h (some jid) p = "journey:" ++ jid
      ∧ make_dedup_key h none p = "prompt:" ++ h p)
    ∧ ("prompt:" ++ h (py_trim rawPrompt) ∈ active →
        start_research_enter h active rawPrompt = (none, active))
    ∧ ("prompt:" ++ h (py_trim rawPrompt) ∉ active →
        start_research_enter h active rawPrompt =
          (some ("prompt:" ++ h (py_trim rawPrompt)),
           ("prompt:" ++ h (py_trim rawPrompt)) :: active)
        ∧ start_research_enter h (("prompt:" ++ h (py_trim rawPrompt)) :: active) rawPrompt =
            (none, ("prompt:" ++ h (py_trim rawPrompt)) :: active)
        ∧ stream_finally (("prompt:" ++ h (py_trim rawPrompt)) :: active)
            ("prompt:" ++ h (py_trim rawPrompt)) = active
        ∧ start_research_enter h
            (stream_finally (("prompt:" ++ h (py_trim rawPrompt)) :: active)
              ("prompt:" ++ h (py_trim rawPrompt))) rawPrompt =
            (some ("prompt:" ++ h (py_trim rawPrompt)),
             ("prompt:" ++ h (py_trim rawPrompt)) :: active))
    ∧ (∀ (O : Oracles) (getJourney : String → Option Journey) (j : Journey)
        (st : String) (sel : Selection) (nums : List Nat),
        getJourney jid = some j → ("journey:" ++ jid) ∈ active →
        submit_selection O h getJourney active jid st sel nums = .conflict) := by
  refine ⟨⟨rfl, rfl⟩, ?_, ?_, ?_⟩
  · intro hmem
    simp [start_research_enter, make_dedup_key, hmem]
  · intro hmem
    have henter : start_research_enter h active rawPrompt =
        (some ("prompt:" ++ h (py_trim rawPrompt)),
         ("prompt:" ++ h (py_trim rawPrompt)) :: active) := by
      simp [start_research_enter, make_dedup_key, hmem]
    have herase : stream_finally (("prompt:" ++ h (py_trim rawPrompt)) :: active)
        ("prompt:" ++ h (py_trim rawPrompt)) = active :=
      List.erase_cons_head _ _
    refine ⟨henter, ?_, herase, ?_⟩
    · simp [start_research_enter, make_dedup_key]
    · rw [herase]; exact henter
  · intro O getJourney j st sel nums hj hmem
    simp [submit_selection, hj, make_dedup_key, hmem]

/-- A stand-in hash for the C7 witness. -/
def hash16 : String → String := fun s => s

/-- Concrete instantiation of the C7 theorem: a fresh start registered,
a concurrent duplicate rejected, the key released on exit, and a third
identical request accepted. -/
theorem dedup_key_lifecycle_witness :
    start_research_enter hash16 [] " build a note app " =
      (some ("prompt:" ++ hash16 (py_trim " build a note app ")),
       ("prompt:" ++ hash16 (py_trim " build a note app ")) :: [])
    ∧ start_research_enter hash16
        (("prompt:" ++ hash16 (py_trim " build a note app ")) :: []) " build a note app " =
        (none, ("prompt:" ++ hash16 (py_trim " build a note app ")) :: [])
    ∧ stream_finally (("prompt:" ++ hash16 (py_trim " build a note app ")) :: [])
        ("prompt:" ++ hash16 (py_trim " build a note app ")) = []
    ∧ start_research_enter hash16
        (stream_finally (("prompt:" ++ hash16 (py_trim " build a note app ")) :: [])
          ("prompt:" ++ hash16 (py_trim " build a note app "))) " build a note app " =
        (some ("prompt:" ++ hash16 (py_trim " build a note app ")),
         ("prompt:" ++ hash16 (py_trim " build a note app ")) :: []) :=
  (dedup_key_lifecycle hash16 [] "j" " build a note app " "p").2.2.1 (by decide)

/-! ## Claim C9 — `normalize_product_name` is idempotent and normal-form -/

/-- A word produced by `split()`: non-empty and free of whitespace. -/
def good_word (w : List Nat) : Prop :=
  w ≠ [] ∧ ∀ c ∈ w, py_is_space c = false

/-- No two adjacent whitespace characters. -/
def no_double_space (l : List Nat) : Prop :=
  List.Chain' (fun a b => ¬(py_is_space a = true ∧ py_is_space b = true)) l

theorem split_aux_good :
    ∀ (s cur : List Nat), (∀ c ∈ cur, py_is_space c = false) →
      ∀ w ∈ split_aux s cur, good_word w := by
  intro s
  induction s with
  | nil =>
    intro cur hcur w hw
    by_cases hc : cur = []
    · simp [split_aux, hc] at hw
    · simp only [split_aux, if_neg hc, List.mem_singleton] at hw
      subst hw
      refine ⟨by simpa using hc, ?_⟩
      intro c hcmem
      exact hcur c (List.mem_reverse.mp hcmem)
  | cons c rest ih =>
    intro cur hcur w hw
    by_cases hsp : py_is_space c = true
    · by_cases hc : cur = []
      · simp only [split_aux, hsp, if_true, hc, ite_true] at hw
        exact ih [] (by simp) w hw
      · simp only [split_aux, hsp, if_true, if_neg hc, List.mem_cons] at hw
        rcases hw with rfl | hw2
        · refine ⟨by simpa using hc, ?_⟩
          intro x hx
          exact hcur x (List.mem_reverse.mp hx)
        · exact ih [] (by simp) w hw2
    · simp only [split_aux, hsp, if_false, Bool.false_eq_true] at hw
      refine ih (c :: cur) ?_ w hw
      intro x hx
      rcases List.mem_cons.mp hx with rfl | hx2
      · simpa using hsp
      · exact hcur x hx2

theorem split_aux_mem :
    ∀ (s cur w : List Nat) (c : Nat), w ∈ split_aux s cur → c ∈ w →
      c ∈ s ∨ c ∈ cur := by
  intro s
  induction s with
  | nil =>
    intro cur w c hw hc
    by_cases hcur : cur = []
    · simp [split_aux, hcur] at hw
    · simp only [split_aux, if_neg hcur, List.mem_singleton] at hw
      subst hw
      exact Or.inr (List.mem_reverse.mp hc)
  | cons x rest ih =>
    intro cur w c hw hc
    by_cases hsp : py_is_space x = true
    · by_cases hcur : cur = []
      · simp only [split_aux, hsp, if_true, hcur, ite_true] at hw
        rcases ih [] w c hw hc with h1 | h2
        · exact Or.inl (List.mem_cons_of_mem x h1)
        · simp at h2
      · simp only [split_aux, hsp, if_true, if_neg hcur, List.mem_cons] at hw
        rcases hw with rfl | hw2
        · exact Or.inr (List.mem_reverse.mp hc)
        · rcases ih [] w c hw2 hc with h1 | h2
          · exact Or.inl (List.mem_cons_of_mem x h1)
          · simp at h2
    · simp only [split_aux, hsp, if_false, Bool.false_eq_true] at hw
      rcases ih (x :: cur) w c hw hc with h1 | h2
      · exact Or.inl (List.mem_cons_of_mem x h1)
      · rcases List.mem_cons.mp h2 with rfl | h3
        · exact Or.inl (List.mem_cons_self c rest)
        · exact Or.inr h3

theorem split_aux_word :
    ∀ (w s cur : List Nat), (∀ c ∈ w, py_is_space c = false) →
      split_aux (w ++ s) cur = split_aux s (w.reverse ++ cur) := by
  intro w
  induction w with
  | nil => intro s cur _; simp
  | cons c w2 ih =>
    intro s cur hw
    have hc : py_is_space c = false := hw c (List.mem_cons_self c w2)
    have hrec := ih s (c :: cur) (fun x hx => hw x (List.mem_cons_of_mem c hx))
    simp only [List.cons_append, split_aux, hc, if_false, Bool.false_eq_true,
      List.append_eq]
    rw [hrec]
    simp

theorem join_words_cons_cons (w v : List Nat) (vs : List (List Nat)) :
    join_words (w :: v :: vs) = w ++ 32 :: join_words (v :: vs) := rfl

theorem split_join :
    ∀ (ws : List (List Nat)), (∀ w ∈ ws, good_word w) →
      py_split (join_words ws) = ws := by
  intro ws
  induction ws with
  | nil => intro _; rfl
  | cons w ws2 ih =>
    intro hgood
    have hw := hgood w (List.mem_cons_self w ws2)
    cases ws2 with
    | nil =>
      show split_aux (join_words [w]) [] = [w]
      have : join_words [w] = w ++ [] := by simp [join_words]
      rw [this, split_aux_word w [] [] hw.2]
      have hwrev : w.reverse ++ [] ≠ [] := by simpa using hw.1
      have hne : w ≠ [] := hw.1
      simp [split_aux, hwrev, hne]
    | cons v vs =>
      show split_aux (join_words (w :: v :: vs)) [] = w :: v :: vs
      rw [join_words_cons_cons, split_aux_word w (32 :: join_words (v :: vs)) [] hw.2]
      have hwrev : w.reverse ++ [] ≠ [] := by simpa using hw.1
      have hsp32 : py_is_space 32 = true := rfl
      simp only [split_aux, hsp32, if_true, if_neg hwrev]
      have := ih (fun x hx => hgood x (List.mem_cons_of_mem w hx))
      rw [show split_aux (join_words (v :: vs)) [] = py_split (join_words (v :: vs)) from rfl,
        this]
      simp

theorem map_fixed {α : Type} (f : α → α) :
    ∀ (l : List α), (∀ c ∈ l, f c = c) → l.map f = l := by
  intro l
  induction l with
  | nil => intro _; rfl
  | cons x xs ih =>
    intro h
    simp only [List.map_cons, h x (List.mem_cons_self x xs),
      ih (fun c hc => h c (List.mem_cons_of_mem x hc))]

theorem py_to_lower_idem (c : Nat) :
    py_to_lower (py_to_lower c) = py_to_lower c := by
  unfold py_to_lower
  split
  · next h =>
    have h2 : ¬(65 ≤ c + 32 ∧ c + 32 ≤ 90) := by omega
    rw [if_neg h2]
  · rfl

theorem mem_py_strip (l : List Nat) (c : Nat) (h : c ∈ py_strip l) : c ∈ l := by
  unfold py_strip at h
  have h1 := List.mem_reverse.mp h
  have h2 := (List.dropWhile_sublist _).mem h1
  have h3 := List.mem_reverse.mp h2
  exact (List.dropWhile_sublist _).mem h3

theorem mem_join_words :
    ∀ (ws : List (List Nat)) (c : Nat), c ∈ join_words ws →
      (∃ w ∈ ws, c ∈ w) ∨ c = 32 := by
  intro ws
  induction ws with
  | nil => intro c hc; simp [join_words] at hc
  | cons w ws2 ih =>
    intro c hc
    cases ws2 with
    | nil =>
      exact Or.inl ⟨w, List.mem_cons_self w [], by simpa [join_words] using hc⟩
    | cons v vs =>
      rw [join_words_cons_cons] at hc
      rcases List.mem_append.mp hc with h1 | h2
      · exact Or.inl ⟨w, List.mem_cons_self w _, h1⟩
      · rcases List.mem_cons.mp h2 with rfl | h3
        · exact Or.inr rfl
        · rcases ih c h3 with ⟨u, hu, hcu⟩ | h32
          · exact Or.inl ⟨u, List.mem_cons_of_mem w hu, hcu⟩
          · exact Or.inr h32

theorem join_head_nonspace :
    ∀ (ws : List (List Nat)), (∀ w ∈ ws, good_word w) → ws ≠ [] →
      ∃ c t, join_words ws = c :: t ∧ py_is_space c = false := by
  intro ws hgood hne
  cases ws with
  | nil => exact absurd rfl hne
  | cons w ws2 =>
    have hw := hgood w (List.mem_cons_self w ws2)
    obtain ⟨c, w2, rfl⟩ : ∃ c w2, w = c :: w2 := by
      cases w with
      | nil => exact absurd rfl hw.1
      | cons c w2 => exact ⟨c, w2, rfl⟩
    have hc := hw.2 c (List.mem_cons_self c w2)
    cases ws2 with
    | nil => exact ⟨c, w2, rfl, hc⟩
    | cons v vs =>
      exact ⟨c, w2 ++ 32 :: join_words (v :: vs), by rw [join_words_cons_cons]; rfl, hc⟩

theorem join_reverse_head_nonspace :
    ∀ (ws : List (List Nat)), (∀ w ∈ ws, good_word w) → ws ≠ [] →
      ∃ c t, (join_words ws).reverse = c :: t ∧ py_is_space c = false := by
  intro ws
  induction ws with
  | nil => intro _ hne; exact absurd rfl hne
  | cons w ws2 ih =>
    intro hgood _
    have hw := hgood w (List.mem_cons_self w ws2)
    cases ws2 with
    | nil =>
      obtain ⟨c, t, hct⟩ : ∃ c t, w.reverse = c :: t := by
        cases hrev : w.reverse with
        | nil => exact absurd (by simpa using hrev) hw.1
        | cons c t => exact ⟨c, t, rfl⟩
      have hcmem : c ∈ w := List.mem_reverse.mp (hct ▸ List.mem_cons_self c t)
      exact ⟨c, t, by simpa [join_words] using hct, hw.2 c hcmem⟩
    | cons v vs =>
      obtain ⟨c, t, hct, hc⟩ :=
        ih (fun x hx => hgood x (List.mem_cons_of_mem w hx)) (by simp)
      refine ⟨c, t ++ 32 :: w.reverse, ?_, hc⟩
      rw [join_words_cons_cons, List.reverse_append, List.reverse_cons, hct]
      simp

theorem py_strip_join (ws : List (List Nat)) (hgood : ∀ w ∈ ws, good_word w) :
    py_strip (join_words ws) = join_words ws := by
  cases hws : ws with
  | nil => rfl
  | cons w ws2 =>
    subst hws
    obtain ⟨c, t, hjoin, hc⟩ := join_head_nonspace _ hgood (by simp)
    obtain ⟨c2, t2, hrev, hc2⟩ := join_reverse_head_nonspace _ hgood (by simp)
    unfold py_strip
    rw [hjoin]
    rw [List.dropWhile_cons, hc]
    simp only [Bool.false_eq_true, if_false]
    rw [← hjoin, hrev, List.dropWhile_cons, hc2]
    simp only [Bool.false_eq_true, if_false]
    rw [← hrev, List.reverse_reverse]

theorem chain_of_nonspace :
    ∀ (w : List Nat), (∀ c ∈ w, py_is_space c = false) → no_double_space w := by
  intro w
  induction w with
  | nil => intro _; exact List.chain'_nil
  | cons a w2 ih =>
    intro h
    cases w2 with
    | nil => exact List.chain'_singleton a
    | cons b w3 =>
      rw [no_double_space, List.chain'_cons]
      refine ⟨?_, ih (fun c hc => h c (List.mem_cons_of_mem a hc))⟩
      intro hcontra
      rw [h a (List.mem_cons_self a _)] at hcontra
      exact Bool.false_ne_true hcontra.1

theorem join_no_double_space :
    ∀ (ws : List (List Nat)), (∀ w ∈ ws, good_word w) →
      no_double_space (join_words ws) := by
  intro ws
  induction ws with
  | nil => intro _; exact List.chain'_nil
  | cons w ws2 ih =>
    intro hgood
    have hw := hgood w (List.mem_cons_self w ws2)
    cases ws2 with
    | nil => exact chain_of_nonspace w hw.2
    | cons v vs =>
      rw [join_words_cons_cons, no_double_space, List.chain'_append]
      refine ⟨chain_of_nonspace w hw.2, ?_, ?_⟩
      · obtain ⟨c, t, hjoin, hc⟩ := join_head_nonspace (v :: vs)
          (fun x hx => hgood x (List.mem_cons_of_mem w hx)) (by simp)
        rw [hjoin, List.chain'_cons]
        refine ⟨?_, ?_⟩
        · intro hcontra
          rw [hc] at hcontra
          exact Bool.false_ne_true hcontra.2
        · have := ih (fun x hx => hgood x (List.mem_cons_of_mem w hx))
          rw [no_double_space, hjoin] at this
          exact this
      · intro x hx y hy
        have hxmem : x ∈ w := by
          obtain ⟨hne, hxeq⟩ := List.mem_getLast?_eq_getLast hx
          rw [hxeq]
          exact List.getLast_mem hne
        intro hcontra
        rw [hw.2 x hxmem] at hcontra
        exact Bool.false_ne_true hcontra.1

theorem normalize_words_good (s : List Nat) :
    ∀ w ∈ py_split (py_strip (s.map py_to_lower)), good_word w :=
  split_aux_good (py_strip (s.map py_to_lower)) [] (by simp)

theorem normalize_words_lower (s : List Nat) :
    ∀ w ∈ py_split (py_strip (s.map py_to_lower)), ∀ c ∈ w, py_to_lower c = c := by
  intro w hw c hc
  rcases split_aux_mem (py_strip (s.map py_to_lower)) [] w c hw hc with h1 | h2
  · have h3 := mem_py_strip _ _ h1
    obtain ⟨a, _, rfl⟩ := List.mem_map.mp h3
    exact py_to_lower_idem a
  · simp at h2

/-- Claim C9: `normalize_product_name` is idempotent, and its output is
lowercase (every code point is a fixpoint of lowercasing), carries no
leading or trailing whitespace (`strip` is the identity on it), and
contains no two adjacent whitespace characters — so cache reads and
writes keyed by a normalized name agree on the same key. -/
theorem normalize_product_name_contract (s : List Nat) :
    normalize_product_name (normalize_product_name s) = normalize_product_name s
    ∧ (∀ c ∈ normalize_product_name s, py_to_lower c = c)
    ∧ py_strip (normalize_product_name s) = normalize_product_name s
    ∧ no_double_space (normalize_product_name s) := by
  have hgood := normalize_words_good s
  have hlow := normalize_words_lower s
  have hlower : ∀ c ∈ normalize_product_name s, py_to_lower c = c := by
    intro c hc
    rcases mem_join_words _ c hc with ⟨w, hw, hcw⟩ | rfl
    · exact hlow w hw c hcw
    · rfl
  have hstrip : py_strip (normalize_product_name s) = normalize_product_name s :=
    py_strip_join _ hgood
  refine ⟨?_, hlower, hstrip, join_no_double_space _ hgood⟩
  show join_words (py_split (py_strip ((normalize_product_name s).map py_to_lower)))
      = normalize_product_name s
  rw [map_fixed py_to_lower _ hlower, hstrip]
  rw [show normalize_product_name s
      = join_words (py_split (py_strip (s.map py_to_lower))) from rfl]
  rw [split_join _ hgood]

/-- Concrete instantiation of the C9 theorem on the code points of
`" Notion  HQ "`: normalizing twice equals normalizing once. -/
theorem normalize_product_name_contract_witness :
    normalize_product_name
        (normalize_product_name [32, 78, 111, 116, 105, 111, 110, 32, 32, 72, 81, 32])
      = normalize_product_name [32, 78, 111, 116, 105, 111, 110, 32, 32, 72, 81, 32]
    ∧ py_to_lower 110 = 110 :=
  ⟨(normalize_product_name_contract [32, 78, 111, 116, 105, 111, 110, 32, 32, 72, 81, 32]).1,
   (normalize_product_name_contract [32, 78, 111, 116, 105, 111, 110, 32, 32, 72, 81, 32]).2.1
     110 (by decide)⟩

/-! ## Concrete fixtures for the pipeline claims -/

/-- An oracle set where every external call fails; branches that never
consult an oracle behave identically for any instance. -/
def oracles_trivial : Oracles :=
  ⟨.error (), "", .error (), fun _ => none, fun _ => .error (), fun _ => .error (),
   fun _ _ _ => .error (), fun _ _ => .error (), .error (), fun _ => .error ()⟩

/-- An empty selection payload. -/
def selection_empty : Selection := ⟨[], [], [], [], []⟩

/-- A minimal existing journey. -/
def journey_demo : Journey := ⟨"j1", "active", "build", []⟩

/-- A store with exactly the minimal journey. -/
def getJourney_demo : String → Option Journey :=
  fun i => if i = "j1" then some journey_demo else none

/-! ## Claim C10 — invalid selection step type -/

/-- Claim C10: a selection submission whose `step_type` is none of
`clarify`, `select_competitors`, `select_problems`, for an existing
journey with no dedup collision, still opens a stream (no 4xx); the
stream emits exactly one event — a non-recoverable error event — and no
database write is issued, leaving the journey unchanged. -/
theorem submit_selection_invalid_step (O : Oracles) (h : String → String)
    (getJourney : String → Option Journey) (active : List String)
    (journeyId step_type : String) (selection : Selection) (stepNums : List Nat)
    (j : Journey) (hj : getJourney journeyId = some j)
    (hkey : ("journey:" ++ journeyId) ∉ active)
    (h1 : step_type ≠ "clarify") (h2 : step_type ≠ "select_competitors")
    (h3 : step_type ≠ "select_problems") :
    submit_selection O h getJourney active journeyId step_type selection stepNums
      = .stream [Event.error_event "Invalid selection step type." false] [] := by
  simp [submit_selection, hj, make_dedup_key, hkey, h1, h2, h3]

/-- Concrete instantiation of the C10 theorem: `step_type = "refine"`
against the existing journey `j1`. -/
theorem submit_selection_invalid_step_witness :
    submit_selection oracles_trivial hash16 getJourney_demo [] "j1" "refine"
        selection_empty []
      = .stream [Event.error_event "Invalid selection step type." false] [] :=
  submit_selection_invalid_step oracles_trivial hash16 getJourney_demo [] "j1" "refine"
    selection_empty [] journey_demo (by decide) (by decide) (by decide) (by decide)
    (by decide)

/-! ## Claim C4 — selection against a completed journey -/

/-- A journey whose terminal phase already succeeded. -/
def journey_completed : Journey :=
  ⟨"j2", "completed", "build",
   [⟨"classify", some "note-taking", [], [], []⟩,
    ⟨"explore", none, [], [⟨"p1", "Problem one"⟩], []⟩]⟩

/-- A store holding exactly the completed journey. -/
def getJourney_completed : String → Option Journey :=
  fun i => if i = "j2" then some journey_completed else none

/-- Oracles where the problem-statement gateway call succeeds. -/
def oracles_problem_ok : Oracles :=
  ⟨.error (), "", .error (), fun _ => none, fun _ => .error (), fun _ => .error (),
   fun _ _ _ => .error (), fun _ _ => .error (), .error (),
   fun _ => .ok ⟨"Problem statement", "statement body"⟩⟩

/-- A selection choosing the presented problem. -/
def selection_problems : Selection := ⟨[], [], ["p1"], [], []⟩

/-- Counterexample to claim C4 as stated: a `select_problems` submission
against the already-completed journey `j2` with no in-flight dedup key is
not rejected — `submit_selection` opens a stream, silently re-runs the
terminal problem phase, persists two more steps, re-marks the journey
completed, and emits `research_complete` again. -/
theorem submit_selection_completed_counterexample :
    journey_completed.status = "completed"
    ∧ submit_selection oracles_problem_ok hash16 getJourney_completed [] "j2"
        "select_problems" selection_problems [1, 2, 3, 4]
      = .stream
          [Event.step_started "defining_problem" "Defining your problem",
           Event.block_ready "problem_statement" "Problem statement" false,
           Event.step_completed "defining_problem",
           Event.research_complete "j2"]
          [DbWrite.saveStep "j2" 5 "select_problems",
           DbWrite.saveStep "j2" 6 "define_problem",
           DbWrite.updateStatus "j2" "completed"] := by
  decide

/-- Claim C4 amended: `submit_selection` never inspects the journey
status; a selection against a completed journey is rejected only through
the generic checks (404 when the journey is missing, 409 when its dedup
key is in flight).  When the journey exists, is completed and no request
is in flight, the stream opens and the pipeline — the terminal phase
included — re-executes; with a succeeding gateway it emits
`research_complete` again. -/
theorem submit_selection_completed_reexecutes (O : Oracles) (h : String → String)
    (getJourney : String → Option Journey) (active : List String) (journeyId : String)
    (selection : Selection) (stepNums : List Nat) (j : Journey)
    (hj : getJourney journeyId = some j) (_hstatus : j.status = "completed")
    (hkey : ("journey:" ++ journeyId) ∉ active) :
    (submit_selection O h getJourney active journeyId "select_problems" selection stepNums
      = .stream (run_problem_pipeline O journeyId selection j stepNums).1
                (run_problem_pipeline O journeyId selection j stepNums).2)
    ∧ (∀ st : ProblemStatement, O.problemLlm (problems_selected selection j) = .ok st →
        Event.research_complete journeyId
          ∈ (run_problem_pipeline O journeyId selection j stepNums).1) := by
  constructor
  · simp [submit_selection, hj, make_dedup_key, hkey]
  · intro st hst
    simp [run_problem_pipeline, hst]

/-- Concrete instantiation of the amended C4 theorem at the completed
journey `j2`. -/
theorem submit_selection_completed_reexecutes_witness :
    (submit_selection oracles_problem_ok hash16 getJourney_completed [] "j2"
        "select_problems" selection_problems [1, 2, 3, 4]
      = .stream
          (run_problem_pipeline oracles_problem_ok "j2" selection_problems
            journey_completed [1, 2, 3, 4]).1
          (run_problem_pipeline oracles_problem_ok "j2" selection_problems
            journey_completed [1, 2, 3, 4]).2)
    ∧ (∀ st : ProblemStatement,
        oracles_problem_ok.problemLlm (problems_selected selection_problems journey_completed)
          = .ok st →
        Event.research_complete "j2"
          ∈ (run_problem_pipeline oracles_problem_ok "j2" selection_problems
              journey_completed [1, 2, 3, 4]).1) :=
  submit_selection_completed_reexecutes oracles_problem_ok hash16 getJourney_completed []
    "j2" selection_problems [1, 2, 3, 4] journey_completed (by decide) (by decide)
    (by decide)

/-! ## Claim C8 — improve intent -/

/-- Oracles whose classify call returns the `improve` intent. -/
def oracles_improve : Oracles :=
  ⟨.ok ⟨"improve", none, some "note-taking", ["q1"]⟩, "j9", .error (), fun _ => none,
   fun _ => .error (), fun _ => .error (), fun _ _ _ => .error (), fun _ _ => .error (),
   .error (), fun _ => .error ()⟩

/-- Counterexample to claim C8 as stated: when classify returns
`improve`, the journey row is created with intent `explore` — the
redirected intent — not with `improve` as the claim requires. -/
theorem improve_intent_counterexample :
    (run_classify_pipeline oracles_improve "make my app better").2
      = [DbWrite.createJourney "make my app better" "explore",
         DbWrite.saveStep "j9" 1 "classify"]
    ∧ DbWrite.createJourney "make my app better" "improve"
        ∉ (run_classify_pipeline oracles_improve "make my app better").2 := by
  decide

/-- Claim C8 amended: when classify returns intent `improve`, the journey
is created with the redirected intent `explore` (not `improve`), the
`journey_started` event carries `explore`, and exactly one
`intent_redirect` event (`improve` → `explore`) is emitted, immediately
after `journey_started`. -/
theorem improve_intent_redirect (O : Oracles) (prompt : String) (cr : ClassifyResult)
    (hcl : O.classifyLlm = .ok cr) (him : cr.intent_type = "improve")
    (hid : O.newJourneyId ≠ "") :
    run_classify_pipeline O prompt =
      ([Event.step_started "classifying" "Understanding your query",
        Event.step_completed "classifying",
        Event.journey_started O.newJourneyId "explore",
        Event.intent_redirect "improve" "explore"]
        ++ (if cr.clarification_questions ≠ [] then [Event.clarification_needed] else [])
        ++ [Event.waiting_for_selection "clarification"],
       [DbWrite.createJourney prompt "explore",
        DbWrite.saveStep O.newJourneyId 1 "classify"]) := by
  simp [run_classify_pipeline, hcl, him, hid]

/-- Concrete instantiation of the amended C8 theorem. -/
theorem improve_intent_redirect_witness :
    run_classify_pipeline oracles_improve "make my app better" =
      ([Event.step_started "classifying" "Understanding your query",
        Event.step_completed "classifying",
        Event.journey_started oracles_improve.newJourneyId "explore",
        Event.intent_redirect "improve" "explore"]
        ++ (if (["q1"] : List String) ≠ [] then [Event.clarification_needed] else [])
        ++ [Event.waiting_for_selection "clarification"],
       [DbWrite.createJourney "make my app better" "explore",
        DbWrite.saveStep oracles_improve.newJourneyId 1 "classify"]) :=
  improve_intent_redirect oracles_improve "make my app better"
    ⟨"improve", none, some "note-taking", ["q1"]⟩ (by rfl) (by rfl) (by decide)

/-! ## Claim C2 — explore phase with one failing scrape -/

/-- Three presented competitors. -/
def comp_a : Competitor := ⟨"c1", "Alpha", "http://a"⟩

def comp_b : Competitor := ⟨"c2", "Beta", "http://b"⟩

def comp_c : Competitor := ⟨"c3", "Gamma", "http://c"⟩

/-- A journey whose `find_competitors` step presented the three
competitors. -/
def journey_explore : Journey :=
  ⟨"j3", "active", "explore",
   [⟨"classify", some "note-taking", [], [], []⟩,
    ⟨"find_competitors", none, [comp_a, comp_b, comp_c], [], []⟩]⟩

/-- A selection choosing all three competitors. -/
def selection_explore : Selection := ⟨["c1", "c2", "c3"], [], [], [], []⟩

/-- Oracles for the C2 scenario: every cache lookup misses, scraping
`http://b` raises `ScraperError`, the other scrapes succeed, Reddit
search succeeds, and every gateway call succeeds. -/
def oracles_scrape_one_fails : Oracles :=
  ⟨.error (), "", .error (), fun _ => none,
   fun u => if u = "http://b" then .error () else .ok "scraped text",
   fun _ => .ok [],
   fun n _ _ => .ok ⟨n, "profile body"⟩,
   fun _ _ => .ok ⟨"Market overview"⟩,
   .error (), fun _ => .error ()⟩

/-- Number of `result_ready` (`block_ready`) events carrying product
profiles. -/
def count_profile_ready (es : List Event) : Nat :=
  es.countP (fun e => match e with
    | .block_ready t _ _ => t == "product_profile"
    | _ => false)

/-- Number of `result_error` (`block_error`) events. -/
def count_block_error (es : List Event) : Nat :=
  es.countP (fun e => match e with
    | .block_error _ => true
    | _ => false)

/-- Counterexample to claim C2 as stated: with 3 selected competitors,
no cache hits, exactly one scrape raising `ScraperError` and all gateway
calls succeeding, the phase emits 3 product-profile `block_ready` events
and 0 `block_error` events — not 2 and 1 — because `process_competitor`
swallows `ScraperError` and still builds a profile from empty scraped
text; the market overview is still emitted. -/
theorem explore_partial_failure_counterexample :
    ¬(count_profile_ready
        (run_explore_pipeline oracles_scrape_one_fails "j3" selection_explore
          journey_explore [1, 2, 3]).1 = 2
      ∧ count_block_error
          (run_explore_pipeline oracles_scrape_one_fails "j3" selection_explore
            journey_explore [1, 2, 3]).1 = 1)
    ∧ count_profile_ready
        (run_explore_pipeline oracles_scrape_one_fails "j3" selection_explore
          journey_explore [1, 2, 3]).1 = 3
    ∧ count_block_error
        (run_explore_pipeline oracles_scrape_one_fails "j3" selection_explore
          journey_explore [1, 2, 3]).1 = 0
    ∧ Event.block_ready "market_overview" "Market overview" false
        ∈ (run_explore_pipeline oracles_scrape_one_fails "j3" selection_explore
            journey_explore [1, 2, 3]).1 := by
  decide

/-- Claim C2 amended: in the explore phase with 3 selected competitors,
none hitting the product cache, exactly one scrape raising `ScraperError`
and every Reddit and gateway call succeeding, the phase emits exactly 3
product-profile `result_ready` events (the failed scrape is tolerated:
that competitor's profile is built from empty scraped text), 0
`result_error` events, and afterwards the aggregate market-overview
`result_ready` event. -/
theorem explore_scrape_tolerated (O : Oracles) (journeyId : String) (selection : Selection)
    (journey : Journey) (stepNums : List Nat) (c1 c2 c3 : Competitor)
    (s1 s3 : String) (rs1 rs2 rs3 : List String) (p1 p2 p3 : Profile) (ov : Overview)
    (hsel : competitors_selected selection journey = [c1, c2, c3])
    (hintent : journey.intent_type = "explore")
    (hc1 : O.cache (normalize_name c1.name) = none)
    (hc2 : O.cache (normalize_name c2.name) = none)
    (hc3 : O.cache (normalize_name c3.name) = none)
    (hu1 : c1.url ≠ "") (hs1 : O.scrape c1.url = .ok s1)
    (hu2 : c2.url ≠ "") (hs2 : O.scrape c2.url = .error ())
    (hu3 : c3.url ≠ "") (hs3 : O.scrape c3.url = .ok s3)
    (hr1 : O.reddit (c1.name ++ " review") = .ok rs1)
    (hr2 : O.reddit (c2.name ++ " review") = .ok rs2)
    (hr3 : O.reddit (c3.name ++ " review") = .ok rs3)
    (hp1 : O.profileLlm c1.name s1 ("\n\n".intercalate rs1) = .ok p1)
    (hp2 : O.profileLlm c2.name "" ("\n\n".intercalate rs2) = .ok p2)
    (hp3 : O.profileLlm c3.name s3 ("\n\n".intercalate rs3) = .ok p3)
    (hov : O.overviewLlm (domain_of journey)
        [⟨p1.name, p1.content, false⟩, ⟨p2.name, p2.content, false⟩,
         ⟨p3.name, p3.content, false⟩] = .ok ov) :
    (run_explore_pipeline O journeyId selection journey stepNums).1 =
      [Event.step_started "exploring" "Analyzing products",
       Event.block_ready "product_profile" p1.name false,
       Event.block_ready "product_profile" p2.name false,
       Event.block_ready "product_profile" p3.name false,
       Event.block_ready "market_overview" ov.title false,
       Event.step_completed "exploring",
       Event.research_complete journeyId] := by
  simp [run_explore_pipeline, process_competitor, results_events, profiles_of,
    hsel, hintent, hc1, hc2, hc3, hu1, hs1, hu2, hs2, hu3, hs3, hr1, hr2, hr3,
    hp1, hp2, hp3, hov]

/-- Concrete instantiation of the amended C2 theorem on the three-feature
scenario: `Beta`'s scrape fails, all profiles still come back. -/
theorem explore_scrape_tolerated_witness :
    (run_explore_pipeline oracles_scrape_one_fails "j3" selection_explore
        journey_explore [1, 2, 3]).1 =
      [Event.step_started "exploring" "Analyzing products",
       Event.block_ready "product_profile" "Alpha" false,
       Event.block_ready "product_profile" "Beta" false,
       Event.block_ready "product_profile" "Gamma" false,
       Event.block_ready "market_overview" "Market overview" false,
       Event.step_completed "exploring",
       Event.research_complete "j3"] :=
  explore_scrape_tolerated oracles_scrape_one_fails "j3" selection_explore
    journey_explore [1, 2, 3] comp_a comp_b comp_c "scraped text" "scraped text"
    [] [] [] ⟨"Alpha", "profile body"⟩ ⟨"Beta", "profile body"⟩
    ⟨"Gamma", "profile body"⟩ ⟨"Market overview"⟩
    (by decide) (by decide) (by rfl) (by rfl) (by rfl)
    (by decide) (by rfl) (by decide) (by rfl) (by decide) (by rfl)
    (by rfl) (by rfl) (by rfl)
    (by rfl) (by rfl) (by rfl)
    (by rfl)

end Blueprint
